import Mathlib

/-!
# Verification of the Aventora chat embedding client

Shallow embedding of `src/public/aventora-chat.js` (the `AventoraChat`
custom element) and the relevant part of `src/widget/widget-ui.js`.
The single-threaded, event-driven browser execution is modelled as a
state structure `ChatState` and pure transition functions, one per
source method; DOM side effects that the claims observe (dispatched
custom events, `postMessage` calls to the iframe, the panel container's
innerHTML) are recorded in the state as logs.
-/

namespace Aventora

/-- A JavaScript `file` value carried by a command: either an already
transportable string (URL / base64 data URL) or an in-memory `File`
object, modelled by its opaque content. -/
inductive FileVal where
  | strVal (s : String)
  | fileVal (content : String)
  deriving DecidableEq, Repr

/-- Options bag accepted by `sendMessage` / `setQuestion`
(`{ autoSend, file }`); absent fields are `none` (JS `undefined`). -/
structure Options where
  autoSend : Option Bool := none
  file : Option FileVal := none
  deriving DecidableEq, Repr

/-- JS truthy-or for an optional boolean: `options.autoSend || false`. -/
def jsOrFalse (a : Option Bool) : Bool := a.getD false

/-- JS truthy-or for an optional string against a string default, where
the empty string is falsy (`a || b`). -/
def jsOr (a : Option String) (b : String) : String :=
  match a with
  | some s => if s = "" then b else s
  | none => b

/-- The internal message record built by `sendMessage`
(`{ text, autoSend, file }`). -/
structure Msg where
  text : String
  autoSend : Bool
  file : Option FileVal
  deriving DecidableEq, Repr

/-- `sendMessage`'s construction of the message record:
`{ text, autoSend: options.autoSend || false, file: options.file || null }`. -/
def mkMessage (text : String) (options : Options) : Msg :=
  { text := text, autoSend := jsOrFalse options.autoSend, file := options.file }

/-- One postMessage command shape sent to the iframe
(`{ type, message|text|question, autoSend, file }`). -/
structure Shape where
  ty : String
  text : String
  autoSend : Bool
  file : Option FileVal
  deriving DecidableEq, Repr

/-- The fixed redundant list of shapes `sendToIframe` posts for one
logical command (`aventora-chat.js` lines 476–481). -/
def messageShapes (m : Msg) : List Shape :=
  [ { ty := "chatbot_message", text := m.text, autoSend := m.autoSend, file := m.file },
    { ty := "send_message", text := m.text, autoSend := m.autoSend, file := m.file },
    { ty := "set_question", text := m.text, autoSend := m.autoSend, file := m.file },
    { ty := "openChatbot", text := m.text, autoSend := m.autoSend, file := m.file } ]

/-- Per the postMessage vocabulary, a shape instructs the remote side to
submit the message (rather than only populate the input) exactly when its
`autoSend` field is true. -/
def instructsSubmit (s : Shape) : Bool := s.autoSend

/-- An inbound `window` message payload (`event.data`): a JS object with
an optional `type` field, the null value, or a non-object primitive. -/
inductive JSData where
  | objData (ty : Option String)
  | nullData
  | primData
  deriving DecidableEq, Repr

/-- `event.data && typeof event.data === 'object'`: in JS `typeof null`
is `'object'` but `null` is falsy, so exactly non-null objects pass. -/
def isWellFormedObject : JSData → Bool
  | .objData _ => true
  | .nullData => false
  | .primData => false

/-- Host-page-visible custom events dispatched on `window`. -/
inductive HostEvent where
  | iframeReadyEvt
  | readyEvt
  | messageEvt (data : JSData)
  | messageSentEvt (text : String) (options : Options)
  | openedEvt
  | closedEvt
  deriving DecidableEq, Repr

/-- Parsed JSON body of a token-endpoint response
(`{ token?, error?, details? }`). -/
structure TokenBody where
  token : Option String := none
  error : Option String := none
  details : Option String := none
  deriving DecidableEq, Repr

/-- Outcome of the `fetch(tokenApiUrl)` call: a 2xx response with a
parseable JSON body, or a non-2xx response whose JSON body parse may
fail (`none`). -/
inductive TokenResp where
  | success (body : TokenBody)
  | failure (body : Option TokenBody)
  deriving DecidableEq, Repr

/-- Outcome of the `fetch('/api/config')` call in `getChatbotUrl`:
`ok body` for a 2xx response with parsed JSON (the `chatbotBaseUrl`
field may be absent), `err` for a network error or non-2xx response. -/
inductive ConfigResp where
  | ok (chatbotBaseUrl : Option String)
  | err
  deriving DecidableEq, Repr

/-- State of one `AventoraChat` instance plus the observable logs of its
DOM side effects. `iframeAttached` models `this.iframe &&
this.iframe.contentWindow` being non-null; `posted` logs each
`contentWindow.postMessage(shape, targetOrigin)`; `events` logs each
`window.dispatchEvent(new CustomEvent(...))`; `pendingEncode` models a
`FileReader` whose `onload` closure holds the message being encoded. -/
structure ChatState where
  token : Option String
  loading : Bool
  error : Option String
  isOpen : Bool
  isMinimized : Bool
  chatPanel : Bool
  iframeAttached : Bool
  iframeReady : Bool
  pendingMessages : List Msg
  chatbotOrigin : String
  pendingEncode : Option Msg
  iframeCreationStarted : Bool
  containerHTML : String
  events : List HostEvent
  posted : List (Shape × String)
  deriving DecidableEq, Repr

/-- Constructor state (`aventora-chat.js` lines 28–37). -/
def initState : ChatState :=
  { token := none, loading := true, error := none, isOpen := false,
    isMinimized := true, chatPanel := true, iframeAttached := false,
    iframeReady := false, pendingMessages := [], chatbotOrigin := "*",
    pendingEncode := none, iframeCreationStarted := false,
    containerHTML := "", events := [], posted := [] }

/-- `escapeHtml`: the `div.textContent = text; return div.innerHTML`
round trip. Per the HTML fragment serialization algorithm, serializing a
text node replaces `&` with `&amp;`, `<` with `&lt;` and `>` with
`&gt;`. -/
def escapeChar (c : Char) : List Char :=
  if c = '&' then ['&', 'a', 'm', 'p', ';']
  else if c = '<' then ['&', 'l', 't', ';']
  else if c = '>' then ['&', 'g', 't', ';']
  else [c]

/-- `escapeHtml` on a whole string. -/
def escapeHtml (s : String) : String := ⟨s.toList.flatMap escapeChar⟩

/-- The error markup `updateErrorState` assigns to
`iframeContainer.innerHTML`; when `this.error` is `null`,
`div.textContent = null` yields the empty string
(LegacyNullToEmptyString), so an unset error escapes to "". -/
def errorMarkup (error : Option String) : String :=
  "<div class=\"error-state\">Error: " ++ escapeHtml (error.getD "") ++ "</div>"

/-- The error fragment of `getHTML` (line 246): rendered only when
`this.error` is truthy (non-empty), and always through `escapeHtml`. -/
def errorFragment (error : Option String) : String :=
  match error with
  | some e => if e = "" then ""
      else "<div class=\"error-state\">Error: " ++ escapeHtml e ++ "</div>"
  | none => ""

/-- `updateErrorState` (lines 418–422). -/
def updateErrorState (st : ChatState) : ChatState :=
  { st with containerHTML := errorMarkup st.error }

/-- `updateLoadingState` (lines 411–415). -/
def updateLoadingState (st : ChatState) : ChatState :=
  { st with containerHTML := "<div class=\"loading-state\">Loading chatbot...</div>" }

/-- `fetchToken` (lines 273–308), as a function of the HTTP outcome.
On non-2xx: `errorData` is the parsed JSON body or
`{ error: 'Failed to generate token' }` when parsing fails; the thrown
message is `errorData.error || errorData.details || 'Failed to generate
chatbot token'`; the catch block records it and renders the error state.
On success the token is stored and `createIframe()` is started. -/
def fetchToken (st : ChatState) (resp : TokenResp) : ChatState :=
  let st := updateLoadingState { st with loading := true, error := none }
  match resp with
  | .failure body =>
    let errorData := body.getD { error := some "Failed to generate token" }
    let msg := jsOr errorData.error (jsOr errorData.details "Failed to generate chatbot token")
    updateErrorState { st with error := some msg, loading := false }
  | .success body =>
    { st with token := body.token, loading := false, iframeCreationStarted := true }

/-- Prefix test over character lists. -/
def isPref : List Char → List Char → Bool
  | [], _ => true
  | _ :: _, [] => false
  | a :: as, b :: bs => a == b && isPref as bs

/-- Occurrence test of `sub` anywhere in `l`. -/
def containsSub (sub : List Char) : List Char → Bool
  | [] => sub.isEmpty
  | c :: rest => isPref sub (c :: rest) || containsSub sub rest

/-- `String.includes` of JS: substring containment. -/
def jsIncludes (s sub : String) : Bool := containsSub sub.toList s.toList

/-- JS `hostname.split('.')` over the character list (the separator is
the single character `.`; JS split with a non-empty separator yields the
maximal dot-free pieces, keeping empty pieces). -/
def splitOnDot : List Char → List (List Char)
  | [] => [[]]
  | c :: rest =>
    match splitOnDot rest with
    | [] => if c = '.' then [[], []] else [[c]]
    | h :: t => if c = '.' then [] :: h :: t else (c :: h) :: t

/-- JS `parts.join('.')`. -/
def joinDots : List (List Char) → List Char
  | [] => []
  | [x] => x
  | x :: xs => x ++ '.' :: joinDots xs

/-- The pure fallback branch of `getChatbotUrl` (lines 384–407):
derives the chatbot base URL from the current hostname, port and tenant
when no server config is available. -/
def fallbackChatbotUrl (tenant hostname port : String) : String :=
  if jsIncludes hostname "localhost" || jsIncludes hostname "127.0.0.1" then
    let p := if port = "" then "3000" else port
    if hostname = "localhost" ∨ hostname = "127.0.0.1" then
      "http://localhost:" ++ p
    else
      "http://" ++ tenant ++ ".localhost:" ++ p
  else
    let parts := splitOnDot hostname.toList
    if parts.length ≥ 2 then
      let baseDomain := String.mk (joinDots (parts.drop (parts.length - 2)))
      "https://" ++ tenant ++ "." ++ baseDomain
    else
      "https://" ++ tenant ++ ".aventora.app"

/-- `getChatbotUrl` (lines 366–408) as a function of the config-fetch
outcome and the current location. Returns the resolved URL and whether
the `/api/config` network call was made. `config.chatbotUrl` is truthy
when non-empty; an ok response adopts `data.chatbotBaseUrl` only when
that field is truthy. -/
def getChatbotUrl (chatbotUrl tenant : String) (resp : ConfigResp)
    (hostname port : String) : String × Bool :=
  if chatbotUrl ≠ "" then (chatbotUrl, false)
  else
    match resp with
    | .ok (some u) =>
      if u ≠ "" then (u, true) else (fallbackChatbotUrl tenant hostname port, true)
    | .ok none => (fallbackChatbotUrl tenant hostname port, true)
    | .err => (fallbackChatbotUrl tenant hostname port, true)

/-- `sendToIframe` (lines 467–492): queue the message and return false
when no iframe content window is attached; otherwise post all four
shapes to the resolved origin and return true. -/
def sendToIframe (st : ChatState) (m : Msg) : ChatState × Bool :=
  if !st.iframeAttached then
    ({ st with pendingMessages := st.pendingMessages ++ [m] }, false)
  else
    ({ st with posted := st.posted ++ (messageShapes m).map (fun s => (s, st.chatbotOrigin)) },
     true)

/-- `processPendingMessages` (lines 495–502): when the queue is
non-empty and `iframeReady`, re-send each queued message via
`sendToIframe` in order (Array.forEach fixes its range at the start, so
elements pushed during iteration are not visited), then assign a fresh
empty array to `pendingMessages`. -/
def processPendingMessages (st : ChatState) : ChatState :=
  if st.pendingMessages ≠ [] ∧ st.iframeReady then
    let st' := st.pendingMessages.foldl (fun s m => (sendToIframe s m).1) st
    { st' with pendingMessages := [] }
  else st

/-- The iframe `onload` handler (lines 341–350): set `iframeReady`,
flush, dispatch `aventora:iframe-ready`. -/
def iframeOnload (st : ChatState) : ChatState :=
  let st := processPendingMessages { st with iframeReady := true }
  { st with events := st.events ++ [.iframeReadyEvt] }

/-- Attachment of the created iframe into the container
(`createIframe` lines 358–362; once appended, `contentWindow` is
non-null). -/
def attachIframe (st : ChatState) : ChatState :=
  { st with iframeAttached := true, containerHTML := "" }

/-- `handleIframeMessage` (lines 449–464): a `chatbot_ready` /
`flutter_ready` typed object triggers the Ready transition (set flag,
flush, dispatch `aventora:ready`); every payload is then republished as
`aventora:message`. -/
def handleIframeMessage (st : ChatState) (data : JSData) : ChatState :=
  let st :=
    if data = .objData (some "chatbot_ready") ∨ data = .objData (some "flutter_ready") then
      let st := processPendingMessages { st with iframeReady := true }
      { st with events := st.events ++ [.readyEvt] }
    else st
  { st with events := st.events ++ [.messageEvt data] }

/-- The window `message` listener installed by `setupMessageListener`
(lines 425–439): drop the event unless the origin matches
`chatbotOrigin` or `chatbotOrigin` is the wildcard; then dispatch only
non-null object payloads. -/
def messageHandler (st : ChatState) (origin : String) (data : JSData) : ChatState :=
  if st.chatbotOrigin ≠ "*" ∧ origin ≠ st.chatbotOrigin then st
  else if isWellFormedObject data then handleIframeMessage st data
  else st

/-- Models `FileReader.readAsDataURL` completing on an in-memory file:
the resulting base64 data URL (`e.target.result`) as a function of the
file's content. -/
def encodeDataUrl (content : String) : String :=
  "data:application/octet-stream;base64," ++ content

/-- `sendMessage` (lines 505–530): build the message record; when the
file is a `File` object start the async encode and return (no send, no
queue, no event yet); otherwise send via `sendToIframe` and dispatch
`aventora:message-sent`. -/
def sendMessage (st : ChatState) (text : String) (options : Options) : ChatState :=
  let m := mkMessage text options
  match m.file with
  | some (.fileVal _) => { st with pendingEncode := some m }
  | _ =>
    let st := (sendToIframe st m).1
    { st with events := st.events ++ [.messageSentEvt text options] }

/-- The `reader.onload` callback of `sendMessage` firing: replace the
message's file with the encoded data URL and send via `sendToIframe`. -/
def encodeComplete (st : ChatState) : ChatState :=
  match st.pendingEncode with
  | some m =>
    let m' := match m.file with
      | some (.fileVal f) => { m with file := some (.strVal (encodeDataUrl f)) }
      | _ => m
    (sendToIframe { st with pendingEncode := none } m').1
  | none => st

/-- `open` (lines 544–560). -/
def openChat (st : ChatState) : ChatState :=
  if st.chatPanel then
    { st with isOpen := true, isMinimized := false,
              events := st.events ++ [.openedEvt] }
  else st

/-- `close` (lines 563–579). -/
def closeChat (st : ChatState) : ChatState :=
  if st.chatPanel then
    { st with isOpen := false, isMinimized := true,
              events := st.events ++ [.closedEvt] }
  else st

/-- `setQuestion` (lines 533–541): open, then (after the 500ms timer —
modelled as the timer firing before the next host action, per the
single-threaded event loop) `sendMessage` with
`{ ...options, autoSend: options.autoSend || false }`. -/
def setQuestion (st : ChatState) (text : String) (options : Options) : ChatState :=
  sendMessage (openChat st) text
    { options with autoSend := some (jsOrFalse options.autoSend) }

/-- One Public Command API call relevant to the queueing claims. -/
inductive Call where
  | send (text : String) (options : Options)
  | setQ (text : String) (options : Options)
  deriving DecidableEq, Repr

/-- Execute one call. -/
def doCall (st : ChatState) : Call → ChatState
  | .send text options => sendMessage st text options
  | .setQ text options => setQuestion st text options

/-- The message record a call constructs. -/
def callMsg : Call → Msg
  | .send text options => mkMessage text options
  | .setQ text options =>
    mkMessage text { options with autoSend := some (jsOrFalse options.autoSend) }

/-- A call whose options carry no in-memory `File` object (such calls
take the direct send/queue path; `File`-carrying calls go through the
async encoder first, see `sendMessage`). -/
def noRawFile : Call → Prop
  | .send _ options => ∀ f, options.file ≠ some (.fileVal f)
  | .setQ _ options => ∀ f, options.file ≠ some (.fileVal f)

/-- `sendMessage` of `src/widget/widget-ui.js` (lines 650–691): the
shapes it sends to the Flutter app once `sendToFlutter` is available.
`options.autoSend === true` (strict equality) selects the submitting
pair of shapes; otherwise a single populate-only `set_question` shape
is sent. -/
def widgetUiSendShapes (text : String) (options : Options) : List Shape :=
  if options.autoSend = some true then
    [ { ty := "send_message", text := text, autoSend := true, file := none },
      { ty := "chatbot_message", text := text, autoSend := true, file := none } ]
  else
    [ { ty := "set_question", text := text, autoSend := false, file := none } ]

/-!
## Helper lemmas
-/

theorem sendToIframe_notAttached (st : ChatState) (m : Msg)
    (h : st.iframeAttached = false) :
    sendToIframe st m =
      ({ st with pendingMessages := st.pendingMessages ++ [m] }, false) := by
  simp [sendToIframe, h]

theorem sendToIframe_attached (st : ChatState) (m : Msg)
    (h : st.iframeAttached = true) :
    sendToIframe st m =
      ({ st with posted :=
          st.posted ++ (messageShapes m).map (fun s => (s, st.chatbotOrigin)) },
       true) := by
  simp [sendToIframe, h]

/-- The delivery log entries produced by posting one message at a given
target origin. -/
def deliveriesOf (origin : String) (m : Msg) : List (Shape × String) :=
  (messageShapes m).map (fun s => (s, origin))

theorem foldlSend_attached (msgs : List Msg) (st : ChatState)
    (h : st.iframeAttached = true) :
    msgs.foldl (fun s m => (sendToIframe s m).1) st =
      { st with posted := st.posted ++ msgs.flatMap (deliveriesOf st.chatbotOrigin) } := by
  induction msgs generalizing st with
  | nil => simp
  | cons m rest ih =>
    simp only [List.foldl_cons, sendToIframe_attached st m h]
    rw [ih]
    · simp [deliveriesOf]
    · exact h

theorem processPending_nil (st : ChatState) (h : st.pendingMessages = []) :
    processPendingMessages st = st := by
  simp [processPendingMessages, h]

theorem processPending_eq (st : ChatState)
    (hA : st.iframeAttached = true) (hR : st.iframeReady = true) :
    processPendingMessages st =
      { st with pendingMessages := [],
                posted := st.posted ++
                  st.pendingMessages.flatMap (deliveriesOf st.chatbotOrigin) } := by
  unfold processPendingMessages
  by_cases hq : st.pendingMessages = []
  · rw [if_neg (by simp [hq])]
    have hfm : st.pendingMessages.flatMap (deliveriesOf st.chatbotOrigin) = [] := by
      rw [hq]; rfl
    rw [hfm, List.append_nil]
    conv_rhs => rw [← hq]
  · rw [if_pos ⟨hq, hR⟩, foldlSend_attached _ _ hA]

theorem sendMessage_noFile (st : ChatState) (text : String) (options : Options)
    (hf : ∀ f, options.file ≠ some (.fileVal f)) :
    sendMessage st text options =
      { (sendToIframe st (mkMessage text options)).1 with
          events := (sendToIframe st (mkMessage text options)).1.events ++
            [.messageSentEvt text options] } := by
  unfold sendMessage
  have : (mkMessage text options).file = options.file := rfl
  rcases ho : options.file with _ | fv
  · simp [mkMessage, ho]
  · rcases fv with s | f
    · simp [mkMessage, ho]
    · exact absurd ho (hf f)

theorem openChat_fields (st : ChatState) :
    (openChat st).pendingMessages = st.pendingMessages ∧
    (openChat st).posted = st.posted ∧
    (openChat st).iframeAttached = st.iframeAttached ∧
    (openChat st).iframeReady = st.iframeReady ∧
    (openChat st).chatbotOrigin = st.chatbotOrigin := by
  unfold openChat
  split <;> simp

theorem doCall_notAttached (st : ChatState) (c : Call)
    (hA : st.iframeAttached = false) (hf : noRawFile c) :
    (doCall st c).pendingMessages = st.pendingMessages ++ [callMsg c] ∧
    (doCall st c).posted = st.posted ∧
    (doCall st c).iframeAttached = false ∧
    (doCall st c).iframeReady = st.iframeReady ∧
    (doCall st c).chatbotOrigin = st.chatbotOrigin := by
  cases c with
  | send text options =>
    rw [doCall, sendMessage_noFile st text options hf,
        sendToIframe_notAttached st _ hA]
    simp [callMsg, hA]
  | setQ text options =>
    obtain ⟨o1, o2, o3, o4, o5⟩ := openChat_fields st
    rw [doCall, setQuestion,
        sendMessage_noFile (openChat st) text
          { options with autoSend := some (jsOrFalse options.autoSend) }
          (by exact hf),
        sendToIframe_notAttached (openChat st) _ (o3.trans hA)]
    simp [callMsg, o1, o2, o3, o4, o5, hA]

theorem foldlCall_notAttached (calls : List Call) (st : ChatState)
    (hA : st.iframeAttached = false) (hf : ∀ c ∈ calls, noRawFile c) :
    (calls.foldl doCall st).pendingMessages =
      st.pendingMessages ++ calls.map callMsg ∧
    (calls.foldl doCall st).posted = st.posted ∧
    (calls.foldl doCall st).iframeAttached = false ∧
    (calls.foldl doCall st).iframeReady = st.iframeReady ∧
    (calls.foldl doCall st).chatbotOrigin = st.chatbotOrigin := by
  induction calls generalizing st with
  | nil => simp [hA]
  | cons c rest ih =>
    obtain ⟨h1, h2, h3, h4, h5⟩ :=
      doCall_notAttached st c hA (hf c (List.mem_cons_self c rest))
    obtain ⟨g1, g2, g3, g4, g5⟩ :=
      ih (doCall st c) h3 (fun c' hc' => hf c' (List.mem_cons_of_mem c hc'))
    refine ⟨?_, ?_, g3, ?_, ?_⟩ <;>
      simp [List.foldl_cons, g1, g2, g4, g5, h1, h2, h4, h5, List.append_assoc]

/-- The Ready transition driven by the iframe `onload` event, applied to
a state whose iframe is attached: sets the flag, flushes the queue once
in FIFO order, clears it, and dispatches `aventora:iframe-ready`. -/
theorem iframeOnload_eq (st : ChatState) (hA : st.iframeAttached = true) :
    iframeOnload st =
      { st with iframeReady := true, pendingMessages := [],
                posted := st.posted ++
                  st.pendingMessages.flatMap (deliveriesOf st.chatbotOrigin),
                events := st.events ++ [.iframeReadyEvt] } := by
  unfold iframeOnload
  rw [processPending_eq { st with iframeReady := true } (by simpa using hA) rfl]

/-- The Ready transition driven by an explicit `chatbot_ready` /
`flutter_ready` message, applied to a state whose iframe is attached. -/
theorem handleReady_eq (st : ChatState) (data : JSData)
    (hD : data = .objData (some "chatbot_ready") ∨
          data = .objData (some "flutter_ready"))
    (hA : st.iframeAttached = true) :
    handleIframeMessage st data =
      { st with iframeReady := true, pendingMessages := [],
                posted := st.posted ++
                  st.pendingMessages.flatMap (deliveriesOf st.chatbotOrigin),
                events := st.events ++ [.readyEvt] ++ [.messageEvt data] } := by
  unfold handleIframeMessage
  rw [if_pos hD]
  rw [processPending_eq { st with iframeReady := true } (by simpa using hA) rfl]

/-- `handleIframeMessage` on a payload that is not a ready signal only
republishes it. -/
theorem handleOther_eq (st : ChatState) (data : JSData)
    (hD : ¬(data = .objData (some "chatbot_ready") ∨
            data = .objData (some "flutter_ready"))) :
    handleIframeMessage st data =
      { st with events := st.events ++ [.messageEvt data] } := by
  unfold handleIframeMessage
  rw [if_neg hD]

/-!
## Claims
-/

/-- C1: every `sendMessage`/`setQuestion` call issued while the bridge is
not Ready (no iframe content window attached) is enqueued on the pending
queue without being dropped or throwing (the transition functions are
total), and after the bridge becomes Ready (iframe attached and its
`onload` fired) the queued commands are posted to the iframe in original
FIFO submission order exactly once, after which the queue is empty. -/
theorem pending_queue_fifo_flush (st : ChatState) (calls : List Call)
    (hA : st.iframeAttached = false) (hf : ∀ c ∈ calls, noRawFile c) :
    (calls.foldl doCall st).pendingMessages =
      st.pendingMessages ++ calls.map callMsg ∧
    (calls.foldl doCall st).posted = st.posted ∧
    (iframeOnload (attachIframe (calls.foldl doCall st))).pendingMessages = [] ∧
    (iframeOnload (attachIframe (calls.foldl doCall st))).posted =
      st.posted ++ (st.pendingMessages ++ calls.map callMsg).flatMap
        (deliveriesOf st.chatbotOrigin) := by
  obtain ⟨q1, q2, q3, q4, q5⟩ := foldlCall_notAttached calls st hA hf
  have hAt : (attachIframe (calls.foldl doCall st)).iframeAttached = true := rfl
  rw [iframeOnload_eq _ hAt]
  refine ⟨q1, q2, rfl, ?_⟩
  simp only [attachIframe]
  rw [q1, q2, q5]

/-- C1 witness: one `sendMessage("hi")` issued before the iframe exists
is queued and then delivered as the four aliased shapes exactly once. -/
theorem pending_queue_fifo_flush_witness :
    ([Call.send "hi" {}].foldl doCall initState).pendingMessages =
      [{ text := "hi", autoSend := false, file := none }] ∧
    ([Call.send "hi" {}].foldl doCall initState).posted = [] ∧
    (iframeOnload (attachIframe
        ([Call.send "hi" {}].foldl doCall initState))).pendingMessages = [] ∧
    (iframeOnload (attachIframe
        ([Call.send "hi" {}].foldl doCall initState))).posted =
      [ ({ ty := "chatbot_message", text := "hi", autoSend := false, file := none }, "*"),
        ({ ty := "send_message", text := "hi", autoSend := false, file := none }, "*"),
        ({ ty := "set_question", text := "hi", autoSend := false, file := none }, "*"),
        ({ ty := "openChatbot", text := "hi", autoSend := false, file := none }, "*") ] := by
  have h := pending_queue_fifo_flush initState [Call.send "hi" {}] rfl
    (by intro c hc; simp at hc; subst hc; intro f hh; cases hh)
  revert h
  decide

/-- C2: when both Ready signals occur — the iframe `onload` event and an
explicit `chatbot_ready`/`flutter_ready` message, in either order — the
flush delivers each queued command exactly once; the second signal finds
an empty queue and posts nothing further (the Ready transition is
idempotent). -/
theorem duplicate_ready_single_flush (st : ChatState) (calls : List Call)
    (hA : st.iframeAttached = false) (hf : ∀ c ∈ calls, noRawFile c) :
    (iframeOnload (attachIframe (calls.foldl doCall st))).pendingMessages = [] ∧
    (iframeOnload (attachIframe (calls.foldl doCall st))).posted =
      st.posted ++ (st.pendingMessages ++ calls.map callMsg).flatMap
        (deliveriesOf st.chatbotOrigin) ∧
    (handleIframeMessage (iframeOnload (attachIframe (calls.foldl doCall st)))
        (.objData (some "chatbot_ready"))).posted =
      (iframeOnload (attachIframe (calls.foldl doCall st))).posted ∧
    (handleIframeMessage (iframeOnload (attachIframe (calls.foldl doCall st)))
        (.objData (some "chatbot_ready"))).pendingMessages = [] ∧
    (handleIframeMessage (attachIframe (calls.foldl doCall st))
        (.objData (some "flutter_ready"))).pendingMessages = [] ∧
    (handleIframeMessage (attachIframe (calls.foldl doCall st))
        (.objData (some "flutter_ready"))).posted =
      st.posted ++ (st.pendingMessages ++ calls.map callMsg).flatMap
        (deliveriesOf st.chatbotOrigin) ∧
    (iframeOnload (handleIframeMessage (attachIframe (calls.foldl doCall st))
        (.objData (some "flutter_ready")))).posted =
      (handleIframeMessage (attachIframe (calls.foldl doCall st))
        (.objData (some "flutter_ready"))).posted ∧
    (iframeOnload (handleIframeMessage (attachIframe (calls.foldl doCall st))
        (.objData (some "flutter_ready")))).pendingMessages = [] := by
  obtain ⟨q1, q2, q3, q4, q5⟩ := foldlCall_notAttached calls st hA hf
  have hAt : (attachIframe (calls.foldl doCall st)).iframeAttached = true := rfl
  have hload := iframeOnload_eq _ hAt
  have hmsg := handleReady_eq (attachIframe (calls.foldl doCall st))
    (.objData (some "flutter_ready")) (Or.inr rfl) hAt
  constructor
  · rw [hload]
  constructor
  · rw [hload]; simp only [attachIframe]; rw [q1, q2, q5]
  constructor
  · rw [hload, handleReady_eq _ _ (Or.inl rfl) rfl]
    simp
  constructor
  · rw [hload, handleReady_eq _ _ (Or.inl rfl) rfl]
  constructor
  · rw [hmsg]
  constructor
  · rw [hmsg]; simp only [attachIframe]; rw [q1, q2, q5]
  constructor
  · rw [hmsg, iframeOnload_eq _ rfl]
    simp
  · rw [hmsg, iframeOnload_eq _ rfl]

/-- C2 witness: one queued command, iframe load followed by an explicit
`chatbot_ready` message — the second signal adds no deliveries. -/
theorem duplicate_ready_single_flush_witness :
    (iframeOnload (attachIframe
        ([Call.send "q" {}].foldl doCall initState))).pendingMessages = [] ∧
    (iframeOnload (attachIframe
        ([Call.send "q" {}].foldl doCall initState))).posted =
      [ ({ ty := "chatbot_message", text := "q", autoSend := false, file := none }, "*"),
        ({ ty := "send_message", text := "q", autoSend := false, file := none }, "*"),
        ({ ty := "set_question", text := "q", autoSend := false, file := none }, "*"),
        ({ ty := "openChatbot", text := "q", autoSend := false, file := none }, "*") ] ∧
    (handleIframeMessage (iframeOnload (attachIframe
        ([Call.send "q" {}].foldl doCall initState)))
        (.objData (some "chatbot_ready"))).posted =
      (iframeOnload (attachIframe
        ([Call.send "q" {}].foldl doCall initState))).posted ∧
    (handleIframeMessage (iframeOnload (attachIframe
        ([Call.send "q" {}].foldl doCall initState)))
        (.objData (some "chatbot_ready"))).pendingMessages = [] := by
  have h := duplicate_ready_single_flush initState [Call.send "q" {}] rfl
    (by intro c hc; simp at hc; subst hc; intro f hh; cases hh)
  revert h
  decide

/-- C3: every command shape emitted for a `sendMessage`/`setQuestion`
call carries an `autoSend` field equal to the caller's `autoSend` option
(defaulting to false when omitted); with `autoSend=false` no emitted
shape instructs the remote side to submit, and with `autoSend=true`
every emitted shape does. This holds for the four aliased shapes of
`aventora-chat.js` `sendToIframe` and for the shapes of
`widget-ui.js` `sendMessage`, whose populate-only branch emits a single
`set_question` shape. -/
theorem autosend_field_faithful (text : String) (options : Options) :
    (∀ s ∈ messageShapes (mkMessage text options),
        s.autoSend = jsOrFalse options.autoSend) ∧
    (∀ s ∈ messageShapes (mkMessage text
        { options with autoSend := some (jsOrFalse options.autoSend) }),
        s.autoSend = jsOrFalse options.autoSend) ∧
    (jsOrFalse options.autoSend = false →
      ∀ s ∈ messageShapes (mkMessage text options), instructsSubmit s = false) ∧
    (jsOrFalse options.autoSend = true →
      ∀ s ∈ messageShapes (mkMessage text options), instructsSubmit s = true) ∧
    (∀ s ∈ widgetUiSendShapes text options,
        s.autoSend = jsOrFalse options.autoSend) ∧
    (jsOrFalse options.autoSend = false →
      ∀ s ∈ widgetUiSendShapes text options,
        s.ty = "set_question" ∧ instructsSubmit s = false) ∧
    (jsOrFalse options.autoSend = true →
      ∀ s ∈ widgetUiSendShapes text options, instructsSubmit s = true) := by
  have hw : widgetUiSendShapes text options =
      if options.autoSend = some true then
        [ { ty := "send_message", text := text, autoSend := true, file := none },
          { ty := "chatbot_message", text := text, autoSend := true, file := none } ]
      else
        [ { ty := "set_question", text := text, autoSend := false, file := none } ] := rfl
  rcases ho : options.autoSend with _ | b
  · simp [messageShapes, mkMessage, jsOrFalse, instructsSubmit, hw, ho]
  · cases b <;>
      simp [messageShapes, mkMessage, jsOrFalse, instructsSubmit, hw, ho]

/-- C3 witness: an omitted `autoSend` defaults to false and no shape
instructs submission; `autoSend=true` makes every shape submit. -/
theorem autosend_field_faithful_witness :
    (∀ s ∈ messageShapes (mkMessage "hello" {}), instructsSubmit s = false) ∧
    (∀ s ∈ messageShapes (mkMessage "hello" { autoSend := some true }),
        instructsSubmit s = true) ∧
    (∀ s ∈ widgetUiSendShapes "hello" {},
        s.ty = "set_question" ∧ instructsSubmit s = false) := by
  have h1 := autosend_field_faithful "hello" {}
  have h2 := autosend_field_faithful "hello" { autoSend := some true }
  exact ⟨h1.2.2.1 rfl, fun s hs => (h2.2.2.2.1 rfl) s hs, h1.2.2.2.2.2.1 rfl⟩

/-- C4: on a non-2xx token response the client surfaces the message of
the parsed JSON error body (`error`, then `details`, then a generic
message; a generic message also when parsing fails) as a visible error
state in the panel, and no iframe is created; for HTTP 500 with body
`{"error":"bad key"}` the surfaced message is "bad key". -/
theorem token_failure_surfaces_error (st : ChatState) (body : Option TokenBody)
    (hC : st.iframeCreationStarted = false) (hA : st.iframeAttached = false) :
    (fetchToken st (.failure body)).error =
      some (jsOr (body.getD { error := some "Failed to generate token" }).error
        (jsOr (body.getD { error := some "Failed to generate token" }).details
          "Failed to generate chatbot token")) ∧
    (fetchToken st (.failure body)).containerHTML =
      errorMarkup (fetchToken st (.failure body)).error ∧
    (fetchToken st (.failure body)).loading = false ∧
    (fetchToken st (.failure body)).iframeCreationStarted = false ∧
    (fetchToken st (.failure body)).iframeAttached = false := by
  simp [fetchToken, updateLoadingState, updateErrorState, hC, hA]

/-- C4 witness: HTTP 500 with `{"error":"bad key"}` surfaces the visible
message "bad key" and creates no iframe. -/
theorem token_failure_surfaces_error_witness :
    (fetchToken initState (.failure (some { error := some "bad key" }))).error =
      some "bad key" ∧
    (fetchToken initState (.failure (some { error := some "bad key" }))).containerHTML =
      errorMarkup (some "bad key") ∧
    (fetchToken initState (.failure (some { error := some "bad key" }))).iframeCreationStarted = false ∧
    (fetchToken initState (.failure (some { error := some "bad key" }))).iframeAttached = false := by
  have h := token_failure_surfaces_error initState
    (some { error := some "bad key" }) rfl rfl
  revert h
  decide

/-- C5: the window-message listener dispatches an inbound message —
including any Ready transition and the republished `aventora:message`
event — only when the message origin equals the resolved origin or the
origin filter is the degraded wildcard, and only when the payload is a
non-null object; any other message leaves the state (and the event log)
unchanged. -/
theorem inbound_origin_filter (st : ChatState) (origin : String) (data : JSData) :
    (st.chatbotOrigin ≠ "*" ∧ origin ≠ st.chatbotOrigin →
      messageHandler st origin data = st) ∧
    (isWellFormedObject data = false → messageHandler st origin data = st) ∧
    ((st.chatbotOrigin = "*" ∨ origin = st.chatbotOrigin) →
      isWellFormedObject data = true →
      messageHandler st origin data = handleIframeMessage st data) := by
  unfold messageHandler
  refine ⟨fun h => by rw [if_pos h], fun h => ?_, fun h1 h2 => ?_⟩
  · split
    · rfl
    · rw [if_neg (by simp [h])]
  · have : ¬(st.chatbotOrigin ≠ "*" ∧ origin ≠ st.chatbotOrigin) := by
      rcases h1 with h1 | h1 <;> simp [h1]
    rw [if_neg this, if_pos (by simp [h2])]

/-- C5 witness: with a resolved origin, a well-formed message from a
foreign origin is dropped with no state change, and one from the
resolved origin is dispatched. -/
theorem inbound_origin_filter_witness :
    messageHandler { initState with chatbotOrigin := "https://demo.aventora.app" }
        "https://evil.example" (.objData (some "chatbot_ready")) =
      { initState with chatbotOrigin := "https://demo.aventora.app" } ∧
    messageHandler { initState with chatbotOrigin := "https://demo.aventora.app" }
        "https://demo.aventora.app" .nullData =
      { initState with chatbotOrigin := "https://demo.aventora.app" } ∧
    messageHandler { initState with chatbotOrigin := "https://demo.aventora.app" }
        "https://demo.aventora.app" (.objData (some "other")) =
      handleIframeMessage { initState with chatbotOrigin := "https://demo.aventora.app" }
        (.objData (some "other")) := by
  have h1 := inbound_origin_filter
    { initState with chatbotOrigin := "https://demo.aventora.app" }
    "https://evil.example" (.objData (some "chatbot_ready"))
  have h2 := inbound_origin_filter
    { initState with chatbotOrigin := "https://demo.aventora.app" }
    "https://demo.aventora.app" .nullData
  have h3 := inbound_origin_filter
    { initState with chatbotOrigin := "https://demo.aventora.app" }
    "https://demo.aventora.app" (.objData (some "other"))
  exact ⟨h1.1 (by decide), h2.2.1 rfl, h3.2.2 (Or.inr rfl) rfl⟩

/-- C6: an explicitly configured remote base URL is returned verbatim
with no config-endpoint fetch; when it is absent, one fetch is made and
on any failure of it (network error / non-2xx is `.err`; a body missing
or with an empty `chatbotBaseUrl` is malformed/incomplete) the result is
the pure fallback derivation: for a non-development host with at least
two domain labels the tenant-scoped subdomain of the host's last two
labels; for a non-development host with fewer labels the fixed
`tenant.aventora.app` pattern; for a development (localhost) host a
localhost URL. -/
theorem config_resolution (chatbotUrl tenant hostname port : String)
    (resp : ConfigResp) :
    (chatbotUrl ≠ "" →
      getChatbotUrl chatbotUrl tenant resp hostname port = (chatbotUrl, false)) ∧
    (chatbotUrl = "" →
      (resp = .err ∨ resp = .ok none ∨ resp = .ok (some "")) →
      getChatbotUrl chatbotUrl tenant resp hostname port =
        (fallbackChatbotUrl tenant hostname port, true)) ∧
    ((jsIncludes hostname "localhost" || jsIncludes hostname "127.0.0.1") = false →
      (splitOnDot hostname.toList).length ≥ 2 →
      fallbackChatbotUrl tenant hostname port =
        "https://" ++ tenant ++ "." ++
          String.mk (joinDots ((splitOnDot hostname.toList).drop
            ((splitOnDot hostname.toList).length - 2)))) ∧
    ((jsIncludes hostname "localhost" || jsIncludes hostname "127.0.0.1") = false →
      (splitOnDot hostname.toList).length < 2 →
      fallbackChatbotUrl tenant hostname port =
        "https://" ++ tenant ++ ".aventora.app") ∧
    ((jsIncludes hostname "localhost" || jsIncludes hostname "127.0.0.1") = true →
      fallbackChatbotUrl tenant hostname port =
        if hostname = "localhost" ∨ hostname = "127.0.0.1" then
          "http://localhost:" ++ (if port = "" then "3000" else port)
        else
          "http://" ++ tenant ++ ".localhost:" ++
            (if port = "" then "3000" else port)) := by
  refine ⟨fun h => by simp [getChatbotUrl, h], fun h hr => ?_, fun h h2 => ?_,
    fun h h2 => ?_, fun h => ?_⟩
  · rcases hr with hr | hr | hr <;> subst hr <;> simp [getChatbotUrl, h]
  · rw [fallbackChatbotUrl, if_neg (by simp_all), if_pos h2]
  · rw [fallbackChatbotUrl, if_neg (by simp_all), if_neg (by omega)]
  · rw [fallbackChatbotUrl, if_pos (by simp_all)]

/-- C6 witness: no explicit URL, config fetch fails, host
`www.example.com` with tenant `demo` resolves deterministically to
`https://demo.example.com`; host `shop` resolves to
`https://demo.aventora.app`; host `localhost` with no port resolves to
`http://localhost:3000`; an explicit URL is returned verbatim without a
fetch. -/
theorem config_resolution_witness :
    getChatbotUrl "" "demo" .err "www.example.com" "" =
      ("https://demo.example.com", true) ∧
    getChatbotUrl "" "demo" .err "shop" "" =
      ("https://demo.aventora.app", true) ∧
    getChatbotUrl "" "demo" .err "localhost" "" =
      ("http://localhost:3000", true) ∧
    getChatbotUrl "https://explicit.example" "demo" .err "www.example.com" "" =
      ("https://explicit.example", false) := by
  have h1 := config_resolution "" "demo" "www.example.com" "" ConfigResp.err
  have h2 := config_resolution "" "demo" "shop" "" ConfigResp.err
  have h3 := config_resolution "" "demo" "localhost" "" ConfigResp.err
  have h4 := config_resolution "https://explicit.example" "demo" "www.example.com" ""
    ConfigResp.err
  refine ⟨?_, ?_, ?_, h4.1 (by decide)⟩
  · rw [h1.2.1 rfl (Or.inl rfl)]
    have := h1.2.2.1 (by decide) (by decide)
    revert this
    decide
  · rw [h2.2.1 rfl (Or.inl rfl)]
    have := h2.2.2.2.1 (by decide) (by decide)
    revert this
    decide
  · rw [h3.2.1 rfl (Or.inl rfl)]
    have := h3.2.2.2.2 (by decide)
    revert this
    decide

/-- C7 counterexample: a `sendMessage` call whose options carry an
in-memory `File` object dispatches no host-page event at all — the
`aventora:message-sent` dispatch is skipped by the early return on the
`File` branch, contradicting the claim that every successful call
dispatches a host-page-visible event for all argument values. -/
theorem sendMessage_file_no_event :
    (sendMessage initState "hello"
        { autoSend := none, file := some (.fileVal "abc") }).events = [] ∧
    (encodeComplete (sendMessage initState "hello"
        { autoSend := none, file := some (.fileVal "abc") })).events = [] := by
  decide

/-- C7 amended: `open`, `close` and `sendMessage`/`setQuestion` calls
without an in-memory `File` dispatch their host-page events
(`aventora:opened`, `aventora:closed`, `aventora:message-sent`); a
`sendMessage` call whose `file` option is a `File` object dispatches no
event, neither at call time nor when its encode completes. -/
theorem command_api_events (st : ChatState) (text : String) (options : Options) :
    (st.chatPanel = true → (openChat st).events = st.events ++ [.openedEvt]) ∧
    (st.chatPanel = true → (closeChat st).events = st.events ++ [.closedEvt]) ∧
    ((∀ f, options.file ≠ some (.fileVal f)) →
      (sendMessage st text options).events =
        st.events ++ [.messageSentEvt text options]) ∧
    (st.chatPanel = true → (∀ f, options.file ≠ some (.fileVal f)) →
      (setQuestion st text options).events =
        st.events ++ [.openedEvt] ++
          [.messageSentEvt text
            { options with autoSend := some (jsOrFalse options.autoSend) }]) ∧
    (∀ f, options.file = some (.fileVal f) →
      (sendMessage st text options).events = st.events ∧
      (encodeComplete (sendMessage st text options)).events = st.events) := by
  refine ⟨fun h => by simp [openChat, h], fun h => by simp [closeChat, h],
    fun hf => ?_, fun hp hf => ?_, fun f hf => ?_⟩
  · rw [sendMessage_noFile st text options hf]
    unfold sendToIframe
    split <;> simp
  · rw [setQuestion, sendMessage_noFile (openChat st) text _ (by exact hf)]
    have ho : (openChat st).events = st.events ++ [.openedEvt] := by
      simp [openChat, hp]
    unfold sendToIframe
    split <;> simp [ho]
  · have hsend : sendMessage st text options =
        { st with pendingEncode := some (mkMessage text options) } := by
      unfold sendMessage
      simp only [mkMessage, hf]
    rw [hsend]
    refine ⟨rfl, ?_⟩
    unfold encodeComplete
    simp only [mkMessage, hf]
    unfold sendToIframe
    split <;> simp

/-- C7 amended witness: `open` and a plain `sendMessage` dispatch their
events. -/
theorem command_api_events_witness :
    (openChat initState).events = [.openedEvt] ∧
    (sendMessage initState "hi" {}).events = [.messageSentEvt "hi" {}] := by
  have h := command_api_events initState "hi" {}
  exact ⟨by simpa using h.1 rfl, by simpa using h.2.2.1 (fun f hh => by cases hh)⟩

theorem encodeComplete_some (st : ChatState) (m : Msg) (f : String)
    (hp : st.pendingEncode = some m) (hm : m.file = some (.fileVal f)) :
    encodeComplete st =
      (sendToIframe { st with pendingEncode := none }
        { m with file := some (.strVal (encodeDataUrl f)) }).1 := by
  unfold encodeComplete
  rw [hp]
  simp only [hm]

/-- C8: a `sendMessage` call whose `file` option is an in-memory `File`
object does not enter the bridge's send/queue path at call time (no
postMessage, no queue growth — only the pending async encode is
recorded), and when the encode completes the command that is then sent
or queued carries the encoded base64 data URL in place of the original
`File` object. -/
theorem file_encoded_before_bridge (st : ChatState) (text : String)
    (options : Options) (f : String)
    (hf : options.file = some (.fileVal f)) :
    (sendMessage st text options).posted = st.posted ∧
    (sendMessage st text options).pendingMessages = st.pendingMessages ∧
    (sendMessage st text options).pendingEncode = some (mkMessage text options) ∧
    (st.iframeAttached = false →
      (encodeComplete (sendMessage st text options)).pendingMessages =
        st.pendingMessages ++
          [{ mkMessage text options with file := some (.strVal (encodeDataUrl f)) }] ∧
      (encodeComplete (sendMessage st text options)).posted = st.posted) ∧
    (st.iframeAttached = true →
      (encodeComplete (sendMessage st text options)).posted =
        st.posted ++ (messageShapes
            { mkMessage text options with file := some (.strVal (encodeDataUrl f)) }).map
          (fun s => (s, st.chatbotOrigin)) ∧
      (encodeComplete (sendMessage st text options)).pendingMessages =
        st.pendingMessages) := by
  have hsend : sendMessage st text options =
      { st with pendingEncode := some (mkMessage text options) } := by
    unfold sendMessage
    simp only [mkMessage, hf]
  have henc := encodeComplete_some
    { st with pendingEncode := some (mkMessage text options) }
    (mkMessage text options) f rfl (by exact hf)
  rw [hsend]
  refine ⟨rfl, rfl, rfl, fun hA => ?_, fun hA => ?_⟩
  · rw [henc, sendToIframe_notAttached _ _ (by exact hA)]
    exact ⟨rfl, rfl⟩
  · rw [henc, sendToIframe_attached _ _ (by exact hA)]
    exact ⟨rfl, rfl⟩

/-- C8 witness: sending a raw file before the iframe exists records only
the pending encode; completion queues the command with the data URL and
never the `File` object. -/
theorem file_encoded_before_bridge_witness :
    (sendMessage initState "doc" { file := some (.fileVal "abc") }).posted = [] ∧
    (sendMessage initState "doc" { file := some (.fileVal "abc") }).pendingMessages = [] ∧
    (sendMessage initState "doc" { file := some (.fileVal "abc") }).pendingEncode =
      some { text := "doc", autoSend := false, file := some (.fileVal "abc") } ∧
    (encodeComplete (sendMessage initState "doc"
        { file := some (.fileVal "abc") })).pendingMessages =
      [{ text := "doc", autoSend := false,
         file := some (.strVal "data:application/octet-stream;base64,abc") }] := by
  have h := file_encoded_before_bridge initState "doc"
    { file := some (.fileVal "abc") } "abc" rfl
  revert h
  decide

/-- C9 counterexample: after the token fetch fails (the Failed
transition: a visible error, no iframe ever created), a `sendMessage`
call does not report failure — it is appended to the pending queue,
which is never flushed in the Failed state, and the call still
dispatches its `aventora:message-sent` success event. -/
theorem failed_state_call_queues_counterexample :
    (fetchToken initState (.failure none)).error = some "Failed to generate token" ∧
    (fetchToken initState (.failure none)).iframeCreationStarted = false ∧
    (sendMessage (fetchToken initState (.failure none)) "hi" {}).pendingMessages =
      [{ text := "hi", autoSend := false, file := none }] ∧
    (sendMessage (fetchToken initState (.failure none)) "hi" {}).events =
      [.messageSentEvt "hi" {}] := by
  decide

/-- C9 amended: a command API call issued while the bridge is in the
Failed state (error recorded, no iframe content window) is appended to
the pending queue; the internal `sendToIframe` returns false, but the
public `sendMessage` ignores that value and still dispatches its
success event, so the caller is not told of the failure. -/
theorem failed_state_call_queues (st : ChatState) (text : String)
    (options : Options) (hE : st.error.isSome = true)
    (hA : st.iframeAttached = false)
    (hf : ∀ f, options.file ≠ some (.fileVal f)) :
    (sendToIframe st (mkMessage text options)).2 = false ∧
    (sendMessage st text options).pendingMessages =
      st.pendingMessages ++ [mkMessage text options] ∧
    (sendMessage st text options).events =
      st.events ++ [.messageSentEvt text options] := by
  rw [sendMessage_noFile st text options hf, sendToIframe_notAttached st _ hA]
  exact ⟨rfl, rfl, rfl⟩

/-- C9 amended witness: in the concrete Failed state the send is queued
and reported as sent. -/
theorem failed_state_call_queues_witness :
    (sendToIframe (fetchToken initState (.failure none))
        (mkMessage "hi" {})).2 = false ∧
    (sendMessage (fetchToken initState (.failure none)) "hi" {}).pendingMessages =
      [mkMessage "hi" {}] ∧
    (sendMessage (fetchToken initState (.failure none)) "hi" {}).events =
      [.messageSentEvt "hi" {}] := by
  have h := failed_state_call_queues (fetchToken initState (.failure none))
    "hi" {} (by decide) (by decide) (fun f hh => by cases hh)
  revert h
  decide

/-- Decoder for the three entities `escapeChar` produces; used to state
that the text-node escaping round-trips losslessly. -/
def unescapeChars : List Char → List Char
  | [] => []
  | '&' :: 'a' :: 'm' :: 'p' :: ';' :: rest => '&' :: unescapeChars rest
  | '&' :: 'l' :: 't' :: ';' :: rest => '<' :: unescapeChars rest
  | '&' :: 'g' :: 't' :: ';' :: rest => '>' :: unescapeChars rest
  | c :: rest => c :: unescapeChars rest

theorem escapeChar_no_angle (a c : Char) (h : c ∈ escapeChar a) :
    c ≠ '<' ∧ c ≠ '>' := by
  unfold escapeChar at h
  split at h
  · simp only [List.mem_cons, List.not_mem_nil, or_false] at h
    rcases h with rfl | rfl | rfl | rfl | rfl <;> decide
  · split at h
    · simp only [List.mem_cons, List.not_mem_nil, or_false] at h
      rcases h with rfl | rfl | rfl | rfl <;> decide
    · split at h
      · simp only [List.mem_cons, List.not_mem_nil, or_false] at h
        rcases h with rfl | rfl | rfl | rfl <;> decide
      · rename_i h1 h2 h3
        simp only [List.mem_cons, List.not_mem_nil, or_false] at h
        subst h
        exact ⟨h2, h3⟩

theorem unescape_other (c : Char) (l : List Char) (h : c ≠ '&') :
    unescapeChars (c :: l) = c :: unescapeChars l := by
  rw [unescapeChars.eq_def]
  split <;> simp_all

theorem unescape_escape (l : List Char) :
    unescapeChars (l.flatMap escapeChar) = l := by
  induction l with
  | nil => rfl
  | cons c rest ih =>
    rw [List.flatMap_cons]
    by_cases h1 : c = '&'
    · subst h1
      show unescapeChars ('&' :: 'a' :: 'm' :: 'p' :: ';' :: rest.flatMap escapeChar) =
        '&' :: rest
      rw [show unescapeChars ('&' :: 'a' :: 'm' :: 'p' :: ';' :: rest.flatMap escapeChar) =
        '&' :: unescapeChars (rest.flatMap escapeChar) from rfl, ih]
    · by_cases h2 : c = '<'
      · subst h2
        show unescapeChars ('&' :: 'l' :: 't' :: ';' :: rest.flatMap escapeChar) =
          '<' :: rest
        rw [show unescapeChars ('&' :: 'l' :: 't' :: ';' :: rest.flatMap escapeChar) =
          '<' :: unescapeChars (rest.flatMap escapeChar) from rfl, ih]
      · by_cases h3 : c = '>'
        · subst h3
          show unescapeChars ('&' :: 'g' :: 't' :: ';' :: rest.flatMap escapeChar) =
            '>' :: rest
          rw [show unescapeChars ('&' :: 'g' :: 't' :: ';' :: rest.flatMap escapeChar) =
            '>' :: unescapeChars (rest.flatMap escapeChar) from rfl, ih]
        · have he : escapeChar c = [c] := by
            unfold escapeChar
            rw [if_neg h1, if_neg h2, if_neg h3]
          rw [he]
          show unescapeChars (c :: rest.flatMap escapeChar) = c :: rest
          rw [unescape_other c _ h1, ih]

/-- C10: every error string rendered into the panel goes through
`escapeHtml` (both in `updateErrorState` and in `getHTML`'s error
fragment); the escaped text contains no `<` or `>` characters, so the
string cannot contribute tag delimiters and cannot inject elements, and
the escaping is a faithful (lossless, invertible) text-node round trip
of the original string. -/
theorem error_rendering_escaped (st : ChatState) (err : String)
    (hE : st.error = some err) (hne : err ≠ "") :
    (updateErrorState st).containerHTML =
      "<div class=\"error-state\">Error: " ++ escapeHtml err ++ "</div>" ∧
    errorFragment st.error =
      "<div class=\"error-state\">Error: " ++ escapeHtml err ++ "</div>" ∧
    (∀ c ∈ (escapeHtml err).toList, c ≠ '<' ∧ c ≠ '>') ∧
    unescapeChars (escapeHtml err).toList = err.toList := by
  refine ⟨by simp [updateErrorState, errorMarkup, hE],
    by simp [errorFragment, hE, hne], fun c hc => ?_, ?_⟩
  · have : c ∈ err.toList.flatMap escapeChar := hc
    rw [List.mem_flatMap] at this
    obtain ⟨a, _, ha⟩ := this
    exact escapeChar_no_angle a c ha
  · exact unescape_escape err.toList

/-- C10 witness: a hostile server-supplied error message is rendered
with all tag delimiters escaped. -/
theorem error_rendering_escaped_witness :
    (updateErrorState { initState with
        error := some "<img src=x onerror=alert(1)>" }).containerHTML =
      "<div class=\"error-state\">Error: " ++
        "&lt;img src=x onerror=alert(1)&gt;" ++ "</div>" ∧
    (∀ c ∈ (escapeHtml "<img src=x onerror=alert(1)>").toList,
      c ≠ '<' ∧ c ≠ '>') := by
  have h := error_rendering_escaped
    { initState with error := some "<img src=x onerror=alert(1)>" }
    "<img src=x onerror=alert(1)>" rfl (by decide)
  refine ⟨?_, h.2.2.1⟩
  rw [h.1]
  decide

end Aventora
